import Mathlib

/-!
# HEIF thumbnail creator

A shallow embedding of `src/heifcreator.cpp`: the three helper functions
`handleForPrimaryImage`, `handleForThumbnailImage`, `imageForHandle`, the
selector `getThumbnailHandle` and the entry point `HeifCreator::create`.

The decoding library (libheif) is an external collaborator.  It is a parameter
of the embedding: a `Decoder` gives, for every operation that reports something,
the values the operation reports (return value and out-parameters).  During one
run of `create` every reporting operation is called at most once, so a decoder
whose answers depend on its history produces no run that a `Decoder` does not
produce.  The operations that report nothing (the three release operations) and
all the others are recorded, in call order, in an event log.

C integers are `Int` (no arithmetic is done on them, only comparisons with
zero); raw pointers are `Nat` addresses, `0` being the null pointer.
-/

namespace HeifThumbnailer

/-! ## Data model -/

/-- A raw C pointer, as an address; address `0` is the null pointer. -/
abbrev Ptr := Nat

/-- The null pointer. -/
def nullptr : Ptr := 0

/-- The libheif enumeration `heif_error_code`, as its integer value. -/
abbrev heif_error_code := Int

/-- The enumerator `heif_error_Ok` of libheif (value zero in `heif.h`). -/
def heif_error_Ok : heif_error_code := 0

/-- The libheif struct `heif_error`; the source reads only its `code`. -/
structure heif_error where
  code : heif_error_code
  deriving DecidableEq

/-- A `QByteArray`: a sequence of bytes. -/
abbrev QByteArray := List UInt8

/-- `QString::toUtf8`, a `QString` being a Lean string: the UTF-8 bytes of the
text. -/
def toUtf8 (path : String) : QByteArray :=
  path.toUTF8.data.toList

/-- The libheif type `heif_item_id` (an unsigned 32-bit integer). -/
abbrev heif_item_id := Nat

/-- The libheif enumeration `heif_colorspace`. -/
inductive heif_colorspace where
  | heif_colorspace_undefined
  | heif_colorspace_YCbCr
  | heif_colorspace_RGB
  | heif_colorspace_monochrome
  deriving DecidableEq

/-- The libheif enumeration `heif_chroma` (the enumerators the model names). -/
inductive heif_chroma where
  | heif_chroma_undefined
  | heif_chroma_monochrome
  | heif_chroma_420
  | heif_chroma_422
  | heif_chroma_444
  | heif_chroma_interleaved_RGB
  | heif_chroma_interleaved_RGBA
  deriving DecidableEq

/-- The libheif enumeration `heif_channel` (the enumerators the model names). -/
inductive heif_channel where
  | heif_channel_Y
  | heif_channel_Cb
  | heif_channel_Cr
  | heif_channel_R
  | heif_channel_G
  | heif_channel_B
  | heif_channel_Alpha
  | heif_channel_interleaved
  deriving DecidableEq

/-- The Qt enumeration `QImage::Format` (the enumerators the model names). -/
inductive QImageFormat where
  | Format_Invalid
  | Format_RGB32
  | Format_ARGB32
  | Format_RGBA8888
  deriving DecidableEq

/-- The cleanup function a `QImage` built over foreign memory carries.  The
source passes one function only: the lambda that hands its argument to
`heif_image_release`. -/
inductive QImageCleanupFunction where
  | none
  | heif_image_release
  deriving DecidableEq

/-- A `QImage` as far as the source determines it: the arguments of the
constructor `QImage(data, width, height, bytesPerLine, format, cleanupFunction,
cleanupInfo)`.  The image views the memory at `data`; it holds no copy. -/
structure QImage where
  data : Ptr
  width : Int
  height : Int
  bytesPerLine : Int
  format : QImageFormat
  cleanupFunction : QImageCleanupFunction
  cleanupInfo : Ptr
  deriving DecidableEq

/-- What an operation with a status and a pointer out-parameter reports: the
status, and the value of the out-parameter variable after the call. -/
structure HandleReply where
  error : heif_error
  out : Ptr
  deriving DecidableEq

/-- A request for a handle or an image succeeds when it reports Ok and
delivers a pointer. -/
def HandleReply.succeeds (r : HandleReply) : Prop :=
  r.error.code = heif_error_Ok ∧ r.out ≠ nullptr

instance (r : HandleReply) : Decidable r.succeeds := by
  unfold HandleReply.succeeds
  infer_instance

/-- What `heif_image_handle_get_list_of_thumbnail_IDs` reports: the count it
returns and the value of the variable `id` after the call. -/
structure ThumbnailIDsReply where
  count : Int
  id : heif_item_id
  deriving DecidableEq

/-- What `heif_image_get_plane_readonly` reports: the pixel pointer it returns
and the value of the variable `stride` after the call. -/
structure PlaneReply where
  data : Ptr
  stride : Int
  deriving DecidableEq

/-- The decoder service: what each reporting libheif operation answers. -/
structure Decoder where
  heif_context_alloc : Ptr
  heif_context_read_from_file : Ptr → QByteArray → Ptr → heif_error
  heif_context_get_primary_image_handle : Ptr → HandleReply
  heif_image_handle_get_list_of_thumbnail_IDs : Ptr → Int → ThumbnailIDsReply
  heif_image_handle_get_thumbnail : Ptr → heif_item_id → HandleReply
  heif_decode_image : Ptr → heif_colorspace → heif_chroma → Ptr → HandleReply
  heif_image_get_width : Ptr → heif_channel → Int
  heif_image_get_height : Ptr → heif_channel → Int
  heif_image_get_plane_readonly : Ptr → heif_channel → PlaneReply

/-- One step of a run that touches a decoder resource: a libheif call with its
arguments and what it reported, or `thumbnailImage.release()`, by which the
scoped pointer gives the decoded image up to the output image. -/
inductive Event where
  | heif_context_alloc (ret : Ptr)
  | heif_context_read_from_file (context : Ptr) (filename : QByteArray) (options : Ptr)
      (error : heif_error)
  | heif_context_get_primary_image_handle (context : Ptr) (reply : HandleReply)
  | heif_image_handle_get_list_of_thumbnail_IDs (handle : Ptr) (count : Int)
      (reply : ThumbnailIDsReply)
  | heif_image_handle_get_thumbnail (handle : Ptr) (id : heif_item_id) (reply : HandleReply)
  | heif_decode_image (handle : Ptr) (colorspace : heif_colorspace) (chroma : heif_chroma)
      (options : Ptr) (reply : HandleReply)
  | heif_image_get_width (image : Ptr) (channel : heif_channel) (ret : Int)
  | heif_image_get_height (image : Ptr) (channel : heif_channel) (ret : Int)
  | heif_image_get_plane_readonly (image : Ptr) (channel : heif_channel) (reply : PlaneReply)
  | heif_context_free (context : Ptr)
  | heif_image_handle_release (handle : Ptr)
  | heif_image_release (image : Ptr)
  | scoped_heif_image_ptr_release (image : Ptr)
  deriving DecidableEq

/-! ## Scoped pointers -/

/-- `HeifContextDeleter::operator()`. -/
def HeifContextDeleter (context : Ptr) : List Event :=
  [Event.heif_context_free context]

/-- `HeifImageHandleDeleter::operator()`. -/
def HeifImageHandleDeleter (handle : Ptr) : List Event :=
  [Event.heif_image_handle_release handle]

/-- `HeifImageDeleter::operator()`. -/
def HeifImageDeleter (image : Ptr) : List Event :=
  [Event.heif_image_release image]

/-- The destructor of a `std::unique_ptr`: the deleter runs when the pointer
held is not null. -/
def unique_ptr_destroy (deleter : Ptr → List Event) (p : Ptr) : List Event :=
  if p = nullptr then [] else deleter p

/-! ## The functions of `heifcreator.cpp` -/

/-- `handleForPrimaryImage`: the scoped pointer returned and the calls made. -/
def handleForPrimaryImage (d : Decoder) (context : Ptr) : Ptr × List Event :=
  let reply := d.heif_context_get_primary_image_handle context
  let log := [Event.heif_context_get_primary_image_handle context reply]
  if reply.error.code ≠ heif_error_Ok then
    (nullptr, log)
  else
    (reply.out, log)

/-- `handleForThumbnailImage`: the scoped pointer returned and the calls made. -/
def handleForThumbnailImage (d : Decoder) (handle : Ptr) : Ptr × List Event :=
  let ids := d.heif_image_handle_get_list_of_thumbnail_IDs handle 1
  let log := [Event.heif_image_handle_get_list_of_thumbnail_IDs handle 1 ids]
  let thumbnailCount := ids.count
  if thumbnailCount = 0 then
    (nullptr, log)
  else
    let reply := d.heif_image_handle_get_thumbnail handle ids.id
    let log := log ++ [Event.heif_image_handle_get_thumbnail handle ids.id reply]
    if reply.error.code ≠ heif_error_Ok then
      (nullptr, log)
    else
      (reply.out, log)

/-- `imageForHandle`: the scoped pointer returned and the calls made. -/
def imageForHandle (d : Decoder) (handle : Ptr) : Ptr × List Event :=
  let colorspace := heif_colorspace.heif_colorspace_RGB
  let chroma := heif_chroma.heif_chroma_interleaved_RGBA
  let reply := d.heif_decode_image handle colorspace chroma nullptr
  let log := [Event.heif_decode_image handle colorspace chroma nullptr reply]
  if reply.error.code ≠ heif_error_Ok then
    (nullptr, log)
  else
    (reply.out, log)

/-- `getThumbnailHandle`: the scoped pointer returned and the calls made, the
destructors of the locals `thumbnailImage` and `primaryImage` (in that order)
included.  A local that was moved into the return value holds null. -/
def getThumbnailHandle (d : Decoder) (context : Ptr) : Ptr × List Event :=
  let primaryImage := handleForPrimaryImage d context
  if primaryImage.1 = nullptr then
    (nullptr, primaryImage.2 ++ unique_ptr_destroy HeifImageHandleDeleter primaryImage.1)
  else
    let thumbnailImage := handleForThumbnailImage d primaryImage.1
    if thumbnailImage.1 ≠ nullptr then
      (thumbnailImage.1, primaryImage.2 ++ thumbnailImage.2
        ++ unique_ptr_destroy HeifImageHandleDeleter nullptr
        ++ unique_ptr_destroy HeifImageHandleDeleter primaryImage.1)
    else
      (primaryImage.1, primaryImage.2 ++ thumbnailImage.2
        ++ unique_ptr_destroy HeifImageHandleDeleter thumbnailImage.1
        ++ unique_ptr_destroy HeifImageHandleDeleter nullptr)

/-- What a call of `HeifCreator::create` leaves behind: the boolean returned,
the caller's `image` after the call, and the calls made. -/
structure CreateResult where
  ret : Bool
  image : QImage
  log : List Event
  deriving DecidableEq

set_option linter.unusedVariables false in
/-- `HeifCreator::create`.  `image` is the caller's image before the call.  On
every exit the locals are destroyed in reverse order of declaration:
`thumbnailImage`, `thumbnailHandle`, `context`.  The hints `width` and `height`
are unused (`Q_UNUSED`). -/
def create (d : Decoder) (path : String) (width height : Int) (image : QImage) :
    CreateResult :=
  let context := d.heif_context_alloc
  let log := [Event.heif_context_alloc context]
  if context = nullptr then
    ⟨false, image, log ++ unique_ptr_destroy HeifContextDeleter context⟩
  else
    let error := d.heif_context_read_from_file context (toUtf8 path) nullptr
    let log := log ++ [Event.heif_context_read_from_file context (toUtf8 path) nullptr error]
    if error.code ≠ heif_error_Ok then
      ⟨false, image, log ++ unique_ptr_destroy HeifContextDeleter context⟩
    else
      let thumbnailHandle := getThumbnailHandle d context
      let log := log ++ thumbnailHandle.2
      if thumbnailHandle.1 = nullptr then
        ⟨false, image, log
          ++ unique_ptr_destroy HeifImageHandleDeleter thumbnailHandle.1
          ++ unique_ptr_destroy HeifContextDeleter context⟩
      else
        let thumbnailImage := imageForHandle d thumbnailHandle.1
        let log := log ++ thumbnailImage.2
        let unwind := unique_ptr_destroy HeifImageDeleter thumbnailImage.1
          ++ unique_ptr_destroy HeifImageHandleDeleter thumbnailHandle.1
          ++ unique_ptr_destroy HeifContextDeleter context
        if thumbnailImage.1 = nullptr then
          ⟨false, image, log ++ unwind⟩
        else
          let channel := heif_channel.heif_channel_interleaved
          let thumbnailWidth := d.heif_image_get_width thumbnailImage.1 channel
          let thumbnailHeight := d.heif_image_get_height thumbnailImage.1 channel
          let log := log
            ++ [Event.heif_image_get_width thumbnailImage.1 channel thumbnailWidth,
                Event.heif_image_get_height thumbnailImage.1 channel thumbnailHeight]
          if thumbnailWidth ≤ 0 ∨ thumbnailHeight ≤ 0 then
            ⟨false, image, log ++ unwind⟩
          else
            let plane := d.heif_image_get_plane_readonly thumbnailImage.1 channel
            let stride := plane.stride
            let data := plane.data
            let log := log
              ++ [Event.heif_image_get_plane_readonly thumbnailImage.1 channel plane]
            if stride ≤ 0 then
              ⟨false, image, log ++ unwind⟩
            else if data = nullptr then
              ⟨false, image, log ++ unwind⟩
            else
              ⟨true,
               QImage.mk data thumbnailWidth thumbnailHeight stride
                 QImageFormat.Format_RGBA8888 QImageCleanupFunction.heif_image_release
                 thumbnailImage.1,
               log ++ [Event.scoped_heif_image_ptr_release thumbnailImage.1]
                 ++ unique_ptr_destroy HeifImageDeleter nullptr
                 ++ unique_ptr_destroy HeifImageHandleDeleter thumbnailHandle.1
                 ++ unique_ptr_destroy HeifContextDeleter context⟩

/-! ## Names for the replies of one run -/

/-- What reading the file into the session reports. -/
def readReply (d : Decoder) (path : String) : heif_error :=
  d.heif_context_read_from_file d.heif_context_alloc (toUtf8 path) nullptr

/-- What the primary-image-handle request on the session reports. -/
def primaryReply (d : Decoder) : HandleReply :=
  d.heif_context_get_primary_image_handle d.heif_context_alloc

/-- The handle the selector returns for the session. -/
def selectedHandle (d : Decoder) : Ptr :=
  (getThumbnailHandle d d.heif_context_alloc).1

/-- What decoding the selected handle into RGB, interleaved RGBA, reports. -/
def decodeReply (d : Decoder) : HandleReply :=
  d.heif_decode_image (selectedHandle d) heif_colorspace.heif_colorspace_RGB
    heif_chroma.heif_chroma_interleaved_RGBA nullptr

/-- The width reported for the interleaved channel of the decoded image. -/
def decodedWidth (d : Decoder) : Int :=
  d.heif_image_get_width (decodeReply d).out heif_channel.heif_channel_interleaved

/-- The height reported for the interleaved channel of the decoded image. -/
def decodedHeight (d : Decoder) : Int :=
  d.heif_image_get_height (decodeReply d).out heif_channel.heif_channel_interleaved

/-- The pixel pointer and stride reported for the interleaved channel of the
decoded image. -/
def planeReply (d : Decoder) : PlaneReply :=
  d.heif_image_get_plane_readonly (decodeReply d).out heif_channel.heif_channel_interleaved

/-! ## Resource accounting over a log -/

/-- The three kinds of decoder resource. -/
inductive ResourceKind where
  | session
  | handle
  | image
  deriving DecidableEq

/-- A decoder resource: its kind and its address. -/
abbrev Resource := ResourceKind × Ptr

/-- The resource a call acquires: an allocation that returns a session, a
handle request or a decode that succeeds. -/
def Event.acquires : Event → List Resource
  | .heif_context_alloc ret =>
      if ret ≠ nullptr then [(ResourceKind.session, ret)] else []
  | .heif_context_get_primary_image_handle _ reply =>
      if reply.succeeds then [(ResourceKind.handle, reply.out)] else []
  | .heif_image_handle_get_thumbnail _ _ reply =>
      if reply.succeeds then [(ResourceKind.handle, reply.out)] else []
  | .heif_decode_image _ _ _ _ reply =>
      if reply.succeeds then [(ResourceKind.image, reply.out)] else []
  | _ => []

/-- The resource a call releases. -/
def Event.releases : Event → List Resource
  | .heif_context_free context => [(ResourceKind.session, context)]
  | .heif_image_handle_release handle => [(ResourceKind.handle, handle)]
  | .heif_image_release image => [(ResourceKind.image, image)]
  | _ => []

/-- The resource a step hands over to the output image. -/
def Event.transfers : Event → List Resource
  | .scoped_heif_image_ptr_release image => [(ResourceKind.image, image)]
  | _ => []

/-- The resources acquired along a log, in order. -/
def acquired (log : List Event) : List Resource :=
  log.flatMap Event.acquires

/-- The resources released along a log, in order. -/
def released (log : List Event) : List Resource :=
  log.flatMap Event.releases

/-- The resources handed over to the output image along a log. -/
def transferred (log : List Event) : List Resource :=
  log.flatMap Event.transfers

/-- Whether a step is the session free. -/
def Event.isContextFree : Event → Bool
  | .heif_context_free _ => true
  | _ => false

/-- Whether a step is a thumbnail-handle request. -/
def Event.isGetThumbnail : Event → Bool
  | .heif_image_handle_get_thumbnail _ _ _ => true
  | _ => false

/-- The resources derived from a session: the handles and images of a list. -/
def derived (rs : List Resource) : List Resource :=
  rs.filter (fun r => decide (r.1 ≠ ResourceKind.session))

/-! ## Sample decoders and images -/

/-- A null `QImage`, as the default constructor gives it. -/
def nullImage : QImage :=
  QImage.mk nullptr 0 0 0 QImageFormat.Format_Invalid QImageCleanupFunction.none nullptr

/-- A decoder for a container with a primary image (handle 2) and one embedded
thumbnail (item 7, handle 3) that decodes to a 160 x 120 image (image 4) with
640 bytes a row. -/
def decoderWithThumbnail : Decoder where
  heif_context_alloc := 1
  heif_context_read_from_file := fun _ _ _ => ⟨heif_error_Ok⟩
  heif_context_get_primary_image_handle := fun _ => ⟨⟨heif_error_Ok⟩, 2⟩
  heif_image_handle_get_list_of_thumbnail_IDs := fun _ _ => ⟨1, 7⟩
  heif_image_handle_get_thumbnail := fun _ _ => ⟨⟨heif_error_Ok⟩, 3⟩
  heif_decode_image := fun _ _ _ _ => ⟨⟨heif_error_Ok⟩, 4⟩
  heif_image_get_width := fun _ _ => 160
  heif_image_get_height := fun _ _ => 120
  heif_image_get_plane_readonly := fun _ _ => ⟨5, 640⟩

/-- The steps of `create` on `decoderWithThumbnail` and the path `photo.heic`
that come before the session free. -/
def thumbnailRunBeforeFree : List Event :=
  [Event.heif_context_alloc 1,
   Event.heif_context_read_from_file 1 (toUtf8 "photo.heic") nullptr ⟨heif_error_Ok⟩,
   Event.heif_context_get_primary_image_handle 1 ⟨⟨heif_error_Ok⟩, 2⟩,
   Event.heif_image_handle_get_list_of_thumbnail_IDs 2 1 ⟨1, 7⟩,
   Event.heif_image_handle_get_thumbnail 2 7 ⟨⟨heif_error_Ok⟩, 3⟩,
   Event.heif_image_handle_release 2,
   Event.heif_decode_image 3 heif_colorspace.heif_colorspace_RGB
     heif_chroma.heif_chroma_interleaved_RGBA nullptr ⟨⟨heif_error_Ok⟩, 4⟩,
   Event.heif_image_get_width 4 heif_channel.heif_channel_interleaved 160,
   Event.heif_image_get_height 4 heif_channel.heif_channel_interleaved 120,
   Event.heif_image_get_plane_readonly 4 heif_channel.heif_channel_interleaved ⟨5, 640⟩,
   Event.scoped_heif_image_ptr_release 4,
   Event.heif_image_handle_release 3]

/-- A decoder for a container with a primary image and no thumbnail. -/
def decoderWithoutThumbnail : Decoder where
  heif_context_alloc := 1
  heif_context_read_from_file := fun _ _ _ => ⟨heif_error_Ok⟩
  heif_context_get_primary_image_handle := fun _ => ⟨⟨heif_error_Ok⟩, 2⟩
  heif_image_handle_get_list_of_thumbnail_IDs := fun _ _ => ⟨0, 0⟩
  heif_image_handle_get_thumbnail := fun _ _ => ⟨⟨1⟩, 0⟩
  heif_decode_image := fun _ _ _ _ => ⟨⟨heif_error_Ok⟩, 4⟩
  heif_image_get_width := fun _ _ => 4000
  heif_image_get_height := fun _ _ => 3000
  heif_image_get_plane_readonly := fun _ _ => ⟨5, 16000⟩

/-- A decoder for a file that is not a container: reading it reports an
error. -/
def decoderUnreadable : Decoder where
  heif_context_alloc := 1
  heif_context_read_from_file := fun _ _ _ => ⟨2⟩
  heif_context_get_primary_image_handle := fun _ => ⟨⟨2⟩, 0⟩
  heif_image_handle_get_list_of_thumbnail_IDs := fun _ _ => ⟨0, 0⟩
  heif_image_handle_get_thumbnail := fun _ _ => ⟨⟨2⟩, 0⟩
  heif_decode_image := fun _ _ _ _ => ⟨⟨2⟩, 0⟩
  heif_image_get_width := fun _ _ => 0
  heif_image_get_height := fun _ _ => 0
  heif_image_get_plane_readonly := fun _ _ => ⟨0, 0⟩

/-- A decoder whose decode reports Ok and leaves a null image pointer, for a
container with a primary image and no thumbnail; asked about any image it
reports 160 x 120 with 640 bytes a row at address 5. -/
def decoderNullImage : Decoder where
  heif_context_alloc := 1
  heif_context_read_from_file := fun _ _ _ => ⟨heif_error_Ok⟩
  heif_context_get_primary_image_handle := fun _ => ⟨⟨heif_error_Ok⟩, 2⟩
  heif_image_handle_get_list_of_thumbnail_IDs := fun _ _ => ⟨0, 0⟩
  heif_image_handle_get_thumbnail := fun _ _ => ⟨⟨1⟩, 0⟩
  heif_decode_image := fun _ _ _ _ => ⟨⟨heif_error_Ok⟩, nullptr⟩
  heif_image_get_width := fun _ _ => 160
  heif_image_get_height := fun _ _ => 120
  heif_image_get_plane_readonly := fun _ _ => ⟨5, 640⟩

/-- A decoder whose primary-image-handle request reports Ok and leaves a null
handle pointer; asked to decode any handle it reports Ok with image 4, 160 x
120 with 640 bytes a row at address 5. -/
def decoderNullPrimary : Decoder where
  heif_context_alloc := 1
  heif_context_read_from_file := fun _ _ _ => ⟨heif_error_Ok⟩
  heif_context_get_primary_image_handle := fun _ => ⟨⟨heif_error_Ok⟩, nullptr⟩
  heif_image_handle_get_list_of_thumbnail_IDs := fun _ _ => ⟨0, 0⟩
  heif_image_handle_get_thumbnail := fun _ _ => ⟨⟨1⟩, 0⟩
  heif_decode_image := fun _ _ _ _ => ⟨⟨heif_error_Ok⟩, 4⟩
  heif_image_get_width := fun _ _ => 160
  heif_image_get_height := fun _ _ => 120
  heif_image_get_plane_readonly := fun _ _ => ⟨5, 640⟩

/-- A decoder whose thumbnail listing returns the count -1, the rest as in
`decoderWithThumbnail`. -/
def decoderNegativeCount : Decoder where
  heif_context_alloc := 1
  heif_context_read_from_file := fun _ _ _ => ⟨heif_error_Ok⟩
  heif_context_get_primary_image_handle := fun _ => ⟨⟨heif_error_Ok⟩, 2⟩
  heif_image_handle_get_list_of_thumbnail_IDs := fun _ _ => ⟨-1, 7⟩
  heif_image_handle_get_thumbnail := fun _ _ => ⟨⟨heif_error_Ok⟩, 3⟩
  heif_decode_image := fun _ _ _ _ => ⟨⟨heif_error_Ok⟩, 4⟩
  heif_image_get_width := fun _ _ => 160
  heif_image_get_height := fun _ _ => 120
  heif_image_get_plane_readonly := fun _ _ => ⟨5, 640⟩

/-- A decoder that reports a 160 x 120 image with a row stride of one byte,
the rest as in `decoderWithThumbnail`. -/
def decoderNarrowStride : Decoder where
  heif_context_alloc := 1
  heif_context_read_from_file := fun _ _ _ => ⟨heif_error_Ok⟩
  heif_context_get_primary_image_handle := fun _ => ⟨⟨heif_error_Ok⟩, 2⟩
  heif_image_handle_get_list_of_thumbnail_IDs := fun _ _ => ⟨1, 7⟩
  heif_image_handle_get_thumbnail := fun _ _ => ⟨⟨heif_error_Ok⟩, 3⟩
  heif_decode_image := fun _ _ _ _ => ⟨⟨heif_error_Ok⟩, 4⟩
  heif_image_get_width := fun _ _ => 160
  heif_image_get_height := fun _ _ => 120
  heif_image_get_plane_readonly := fun _ _ => ⟨5, 1⟩

/-! ## The runs of the selector and of `create` -/

/-- The four runs of `getThumbnailHandle`: no primary handle; no thumbnail
listed; a thumbnail listed and not obtained; the thumbnail obtained. -/
theorem getThumbnailHandle_cases (d : Decoder) (context : Ptr)
    (P : HandleReply) (hP : P = d.heif_context_get_primary_image_handle context)
    (I : ThumbnailIDsReply) (hI : I = d.heif_image_handle_get_list_of_thumbnail_IDs P.out 1)
    (T : HandleReply) (hT : T = d.heif_image_handle_get_thumbnail P.out I.id) :
    (¬ P.succeeds
      ∧ getThumbnailHandle d context
        = (nullptr, [Event.heif_context_get_primary_image_handle context P]))
    ∨ (P.succeeds ∧ I.count = 0
      ∧ getThumbnailHandle d context
        = (P.out, [Event.heif_context_get_primary_image_handle context P,
            Event.heif_image_handle_get_list_of_thumbnail_IDs P.out 1 I]))
    ∨ (P.succeeds ∧ I.count ≠ 0
      ∧ ¬ T.succeeds
      ∧ getThumbnailHandle d context
        = (P.out, [Event.heif_context_get_primary_image_handle context P,
            Event.heif_image_handle_get_list_of_thumbnail_IDs P.out 1 I,
            Event.heif_image_handle_get_thumbnail P.out I.id T]))
    ∨ (P.succeeds ∧ I.count ≠ 0
      ∧ T.succeeds
      ∧ getThumbnailHandle d context
        = (T.out, [Event.heif_context_get_primary_image_handle context P,
            Event.heif_image_handle_get_list_of_thumbnail_IDs P.out 1 I,
            Event.heif_image_handle_get_thumbnail P.out I.id T,
            Event.heif_image_handle_release P.out])) := by
  subst hT hI hP
  unfold getThumbnailHandle handleForThumbnailImage handleForPrimaryImage unique_ptr_destroy
    HeifImageHandleDeleter HandleReply.succeeds
  simp only []
  split_ifs <;> simp_all

/-- A scoped pointer that holds null releases nothing. -/
theorem unique_ptr_destroy_null (deleter : Ptr → List Event) :
    unique_ptr_destroy deleter nullptr = [] := by
  simp [unique_ptr_destroy]

/-- A scoped pointer that holds a resource runs its deleter on it. -/
theorem unique_ptr_destroy_of_ne (deleter : Ptr → List Event) (p : Ptr) (hp : p ≠ nullptr) :
    unique_ptr_destroy deleter p = deleter p := by
  simp [unique_ptr_destroy, hp]

/-- The one call `imageForHandle` makes. -/
theorem imageForHandle_log (d : Decoder) (handle : Ptr) :
    (imageForHandle d handle).2
      = [Event.heif_decode_image handle heif_colorspace.heif_colorspace_RGB
          heif_chroma.heif_chroma_interleaved_RGBA nullptr
          (d.heif_decode_image handle heif_colorspace.heif_colorspace_RGB
            heif_chroma.heif_chroma_interleaved_RGBA nullptr)] := by
  unfold imageForHandle
  simp only []
  split_ifs <;> rfl

/-- The scoped image `imageForHandle` returns on a failed decode. -/
theorem imageForHandle_of_ne (d : Decoder) (handle : Ptr)
    (h : (d.heif_decode_image handle heif_colorspace.heif_colorspace_RGB
      heif_chroma.heif_chroma_interleaved_RGBA nullptr).error.code ≠ heif_error_Ok) :
    (imageForHandle d handle).1 = nullptr := by
  simp [imageForHandle, h]

/-- The scoped image `imageForHandle` returns on a decode that reports Ok. -/
theorem imageForHandle_of_eq (d : Decoder) (handle : Ptr)
    (h : (d.heif_decode_image handle heif_colorspace.heif_colorspace_RGB
      heif_chroma.heif_chroma_interleaved_RGBA nullptr).error.code = heif_error_Ok) :
    (imageForHandle d handle).1
      = (d.heif_decode_image handle heif_colorspace.heif_colorspace_RGB
          heif_chroma.heif_chroma_interleaved_RGBA nullptr).out := by
  simp [imageForHandle, h]

/-- The seven runs of `create`, the selector's part of the log left as it is:
no session; file not read; no handle selected; not decoded; no width or height;
no stride or pixels; success. -/
theorem create_cases (d : Decoder) (path : String) (width height : Int) (image : QImage)
    (c : Ptr) (hc : c = d.heif_context_alloc)
    (R : heif_error) (hR : R = d.heif_context_read_from_file c (toUtf8 path) nullptr)
    (H : Ptr) (L : List Event) (hH : (H, L) = getThumbnailHandle d c)
    (D : HandleReply) (hD : D = d.heif_decode_image H heif_colorspace.heif_colorspace_RGB
      heif_chroma.heif_chroma_interleaved_RGBA nullptr)
    (w : Int) (hw : w = d.heif_image_get_width D.out heif_channel.heif_channel_interleaved)
    (h : Int) (hh : h = d.heif_image_get_height D.out heif_channel.heif_channel_interleaved)
    (S : PlaneReply)
    (hS : S = d.heif_image_get_plane_readonly D.out heif_channel.heif_channel_interleaved) :
    (c = nullptr
      ∧ create d path width height image = ⟨false, image, [Event.heif_context_alloc c]⟩)
    ∨ (c ≠ nullptr ∧ R.code ≠ heif_error_Ok
      ∧ create d path width height image = ⟨false, image,
          [Event.heif_context_alloc c,
           Event.heif_context_read_from_file c (toUtf8 path) nullptr R,
           Event.heif_context_free c]⟩)
    ∨ (c ≠ nullptr ∧ R.code = heif_error_Ok ∧ H = nullptr
      ∧ create d path width height image = ⟨false, image,
          [Event.heif_context_alloc c,
           Event.heif_context_read_from_file c (toUtf8 path) nullptr R] ++ L
          ++ [Event.heif_context_free c]⟩)
    ∨ (c ≠ nullptr ∧ R.code = heif_error_Ok ∧ H ≠ nullptr
      ∧ ¬ D.succeeds
      ∧ create d path width height image = ⟨false, image,
          [Event.heif_context_alloc c,
           Event.heif_context_read_from_file c (toUtf8 path) nullptr R] ++ L
          ++ [Event.heif_decode_image H heif_colorspace.heif_colorspace_RGB
                heif_chroma.heif_chroma_interleaved_RGBA nullptr D,
              Event.heif_image_handle_release H,
              Event.heif_context_free c]⟩)
    ∨ (c ≠ nullptr ∧ R.code = heif_error_Ok ∧ H ≠ nullptr
      ∧ D.succeeds ∧ (w ≤ 0 ∨ h ≤ 0)
      ∧ create d path width height image = ⟨false, image,
          [Event.heif_context_alloc c,
           Event.heif_context_read_from_file c (toUtf8 path) nullptr R] ++ L
          ++ [Event.heif_decode_image H heif_colorspace.heif_colorspace_RGB
                heif_chroma.heif_chroma_interleaved_RGBA nullptr D,
              Event.heif_image_get_width D.out heif_channel.heif_channel_interleaved w,
              Event.heif_image_get_height D.out heif_channel.heif_channel_interleaved h,
              Event.heif_image_release D.out,
              Event.heif_image_handle_release H,
              Event.heif_context_free c]⟩)
    ∨ (c ≠ nullptr ∧ R.code = heif_error_Ok ∧ H ≠ nullptr
      ∧ D.succeeds ∧ (0 < w ∧ 0 < h)
      ∧ (S.stride ≤ 0 ∨ S.data = nullptr)
      ∧ create d path width height image = ⟨false, image,
          [Event.heif_context_alloc c,
           Event.heif_context_read_from_file c (toUtf8 path) nullptr R] ++ L
          ++ [Event.heif_decode_image H heif_colorspace.heif_colorspace_RGB
                heif_chroma.heif_chroma_interleaved_RGBA nullptr D,
              Event.heif_image_get_width D.out heif_channel.heif_channel_interleaved w,
              Event.heif_image_get_height D.out heif_channel.heif_channel_interleaved h,
              Event.heif_image_get_plane_readonly D.out heif_channel.heif_channel_interleaved S,
              Event.heif_image_release D.out,
              Event.heif_image_handle_release H,
              Event.heif_context_free c]⟩)
    ∨ (c ≠ nullptr ∧ R.code = heif_error_Ok ∧ H ≠ nullptr
      ∧ D.succeeds ∧ (0 < w ∧ 0 < h)
      ∧ (0 < S.stride ∧ S.data ≠ nullptr)
      ∧ create d path width height image = ⟨true,
          QImage.mk S.data w h S.stride QImageFormat.Format_RGBA8888
            QImageCleanupFunction.heif_image_release D.out,
          [Event.heif_context_alloc c,
           Event.heif_context_read_from_file c (toUtf8 path) nullptr R] ++ L
          ++ [Event.heif_decode_image H heif_colorspace.heif_colorspace_RGB
                heif_chroma.heif_chroma_interleaved_RGBA nullptr D,
              Event.heif_image_get_width D.out heif_channel.heif_channel_interleaved w,
              Event.heif_image_get_height D.out heif_channel.heif_channel_interleaved h,
              Event.heif_image_get_plane_readonly D.out heif_channel.heif_channel_interleaved S,
              Event.scoped_heif_image_ptr_release D.out,
              Event.heif_image_handle_release H,
              Event.heif_context_free c]⟩) := by
  have hH1 : (getThumbnailHandle d c).1 = H := by rw [← hH]
  have hH2 : (getThumbnailHandle d c).2 = L := by rw [← hH]
  subst hS hh hw hD hR
  subst hc
  by_cases h1 : d.heif_context_alloc = nullptr
  · left
    refine ⟨h1, ?_⟩
    simp [create, h1, unique_ptr_destroy_null]
  right
  by_cases h2 : (d.heif_context_read_from_file d.heif_context_alloc (toUtf8 path) nullptr).code
      = heif_error_Ok
  swap
  · left
    refine ⟨h1, h2, ?_⟩
    simp [create, h1, h2, unique_ptr_destroy_of_ne, HeifContextDeleter]
  right
  by_cases h3 : H = nullptr
  · left
    refine ⟨h1, h2, h3, ?_⟩
    simp [create, h1, h2, hH1, hH2, h3, unique_ptr_destroy_null, unique_ptr_destroy_of_ne,
      HeifContextDeleter]
  right
  by_cases h4 : (d.heif_decode_image H heif_colorspace.heif_colorspace_RGB
      heif_chroma.heif_chroma_interleaved_RGBA nullptr).error.code = heif_error_Ok
  swap
  · left
    refine ⟨h1, h2, h3, fun hs => h4 hs.1, ?_⟩
    simp [create, h1, h2, hH1, hH2, h3, imageForHandle_log, imageForHandle_of_ne _ _ h4,
      unique_ptr_destroy_null, unique_ptr_destroy_of_ne, HeifContextDeleter,
      HeifImageHandleDeleter]
  by_cases h5 : (d.heif_decode_image H heif_colorspace.heif_colorspace_RGB
      heif_chroma.heif_chroma_interleaved_RGBA nullptr).out = nullptr
  · left
    refine ⟨h1, h2, h3, fun hs => hs.2 h5, ?_⟩
    simp [create, h1, h2, hH1, hH2, h3, imageForHandle_log, imageForHandle_of_eq _ _ h4, h5,
      unique_ptr_destroy_null, unique_ptr_destroy_of_ne, HeifContextDeleter,
      HeifImageHandleDeleter]
  right
  by_cases h6 : d.heif_image_get_width (d.heif_decode_image H heif_colorspace.heif_colorspace_RGB
        heif_chroma.heif_chroma_interleaved_RGBA nullptr).out
        heif_channel.heif_channel_interleaved ≤ 0
      ∨ d.heif_image_get_height (d.heif_decode_image H heif_colorspace.heif_colorspace_RGB
        heif_chroma.heif_chroma_interleaved_RGBA nullptr).out
        heif_channel.heif_channel_interleaved ≤ 0
  · left
    refine ⟨h1, h2, h3, ⟨h4, h5⟩, h6, ?_⟩
    simp [create, h1, h2, hH1, hH2, h3, imageForHandle_log, imageForHandle_of_eq _ _ h4, h5, h6,
      unique_ptr_destroy_of_ne, HeifContextDeleter, HeifImageHandleDeleter, HeifImageDeleter]
  right
  have h6a := not_le.mp (not_or.mp h6).1
  have h6b := not_le.mp (not_or.mp h6).2
  by_cases h7 : 0 < (d.heif_image_get_plane_readonly
      (d.heif_decode_image H heif_colorspace.heif_colorspace_RGB
        heif_chroma.heif_chroma_interleaved_RGBA nullptr).out
      heif_channel.heif_channel_interleaved).stride
  swap
  · left
    refine ⟨h1, h2, h3, ⟨h4, h5⟩, ⟨h6a, h6b⟩, Or.inl (not_lt.mp h7), ?_⟩
    simp [create, h1, h2, hH1, hH2, h3, imageForHandle_log, imageForHandle_of_eq _ _ h4, h5, h6,
      not_lt.mp h7,
      unique_ptr_destroy_of_ne, HeifContextDeleter, HeifImageHandleDeleter, HeifImageDeleter]
  by_cases h8 : (d.heif_image_get_plane_readonly
      (d.heif_decode_image H heif_colorspace.heif_colorspace_RGB
        heif_chroma.heif_chroma_interleaved_RGBA nullptr).out
      heif_channel.heif_channel_interleaved).data = nullptr
  · left
    refine ⟨h1, h2, h3, ⟨h4, h5⟩, ⟨h6a, h6b⟩, Or.inr h8, ?_⟩
    simp [create, h1, h2, hH1, hH2, h3, imageForHandle_log, imageForHandle_of_eq _ _ h4, h5, h6,
      h8,
      unique_ptr_destroy_of_ne, HeifContextDeleter, HeifImageHandleDeleter, HeifImageDeleter]
  right
  refine ⟨h1, h2, h3, ⟨h4, h5⟩, ⟨h6a, h6b⟩, ⟨h7, h8⟩, ?_⟩
  simp [create, h1, h2, hH1, hH2, h3, imageForHandle_log, imageForHandle_of_eq _ _ h4, h5, h6,
    h7, h8, unique_ptr_destroy_null,
    unique_ptr_destroy_of_ne, HeifContextDeleter, HeifImageHandleDeleter, HeifImageDeleter]

/-! ## Where the session free stands in a log -/

/-- A log that ends in its only session free splits at a session free in one
way only. -/
theorem split_at_last_free (body : List Event) (c : Ptr)
    (hbody : ∀ e ∈ body, e.isContextFree = false) (pre post : List Event) (p : Ptr)
    (h : body ++ [Event.heif_context_free c] = pre ++ Event.heif_context_free p :: post) :
    pre = body ∧ p = c ∧ post = [] := by
  induction body generalizing pre with
  | nil =>
    cases pre with
    | nil =>
      simp only [List.nil_append, List.cons.injEq, Event.heif_context_free.injEq] at h
      exact ⟨rfl, h.1.symm, h.2.symm⟩
    | cons a pre =>
      simp at h
  | cons x body ih =>
    cases pre with
    | nil =>
      simp only [List.cons_append, List.nil_append, List.cons.injEq] at h
      have hx := hbody x (List.mem_cons_self x body)
      rw [h.1] at hx
      simp [Event.isContextFree] at hx
    | cons a pre =>
      simp only [List.cons_append, List.cons.injEq] at h
      obtain ⟨hpre, hp, hpost⟩ :=
        ih (fun e he => hbody e (List.mem_cons_of_mem x he)) pre h.2
      exact ⟨by rw [h.1, hpre], hp, hpost⟩

/-- A log with no session free does not split at one. -/
theorem no_free_no_split (log : List Event) (hlog : ∀ e ∈ log, e.isContextFree = false)
    (pre post : List Event) (p : Ptr) :
    log ≠ pre ++ Event.heif_context_free p :: post := by
  intro h
  have hmem : Event.heif_context_free p ∈ log := by
    rw [h]
    simp
  have := hlog _ hmem
  simp [Event.isContextFree] at this

/-- The shape of the log of `create`: with no session there is no session
free; with a session the log ends in the one free of that session, and what
stands before it releases or hands over every handle and image acquired. -/
theorem create_log_shape (d : Decoder) (path : String) (width height : Int) (image : QImage) :
    (d.heif_context_alloc = nullptr
      ∧ ∀ e ∈ (create d path width height image).log, e.isContextFree = false)
    ∨ ((create d path width height image).log
        = (create d path width height image).log.dropLast
          ++ [Event.heif_context_free d.heif_context_alloc]
      ∧ (∀ e ∈ (create d path width height image).log.dropLast, e.isContextFree = false)
      ∧ List.Perm
          (released (create d path width height image).log.dropLast
            ++ transferred (create d path width height image).log.dropLast)
          (derived (acquired (create d path width height image).log))) := by
  rcases create_cases d path width height image _ rfl _ rfl
    (getThumbnailHandle d d.heif_context_alloc).1 (getThumbnailHandle d d.heif_context_alloc).2
    rfl _ rfl _ rfl _ rfl _ rfl with
    ⟨h1, he⟩ | ⟨h1, h2, he⟩ | ⟨h1, h2, h3, he⟩ | ⟨h1, h2, h3, h4, he⟩
    | ⟨h1, h2, h3, h4, h5, he⟩ | ⟨h1, h2, h3, h4, h5, h6, he⟩ | ⟨h1, h2, h3, h4, h5, h6, he⟩
  · left
    rw [he]
    exact ⟨h1, by simp [Event.isContextFree]⟩
  all_goals
    right
    rw [he]
    rcases getThumbnailHandle_cases d d.heif_context_alloc _ rfl _ rfl _ rfl with
      ⟨g1, ge⟩ | ⟨g1, g2, ge⟩ | ⟨g1, g2, g3, ge⟩ | ⟨g1, g2, g3, ge⟩
  all_goals
    simp_all [acquired, released, transferred, derived, Event.acquires, Event.releases,
      Event.transfers, Event.isContextFree]
  all_goals
    first
      | (exfalso
         simp_all [HandleReply.succeeds]
         done)
      | (rw [List.perm_iff_count]
         intro r
         simp only [List.count_cons, List.count_nil]
         omega)

/-! ## The claims -/

/-- C5: on every exit of `create` the releases made and the resource handed to
the output image are, resource by resource, the successful acquisitions: the
number of releases is the number of acquisitions less one exactly when the
call returns true, which is when the decoded image was handed over; nothing
acquired is released twice or left unreleased. -/
theorem create_resource_accounting (d : Decoder) (path : String) (width height : Int)
    (image : QImage) :
    (released (create d path width height image).log).length
        + (if (create d path width height image).ret = true then 1 else 0)
      = (acquired (create d path width height image).log).length
    ∧ transferred (create d path width height image).log
      = (if (create d path width height image).ret = true then
          [(ResourceKind.image, (decodeReply d).out)] else [])
    ∧ List.Perm
        (released (create d path width height image).log
          ++ transferred (create d path width height image).log)
        (acquired (create d path width height image).log) := by
  simp only [decodeReply, selectedHandle]
  rcases create_cases d path width height image _ rfl _ rfl
    (getThumbnailHandle d d.heif_context_alloc).1 (getThumbnailHandle d d.heif_context_alloc).2
    rfl _ rfl _ rfl _ rfl _ rfl with
    ⟨h1, he⟩ | ⟨h1, h2, he⟩ | ⟨h1, h2, h3, he⟩ | ⟨h1, h2, h3, h4, he⟩
    | ⟨h1, h2, h3, h4, h5, he⟩ | ⟨h1, h2, h3, h4, h5, h6, he⟩ | ⟨h1, h2, h3, h4, h5, h6, he⟩
  all_goals
    rw [he]
    rcases getThumbnailHandle_cases d d.heif_context_alloc _ rfl _ rfl _ rfl with
      ⟨g1, ge⟩ | ⟨g1, g2, ge⟩ | ⟨g1, g2, g3, ge⟩ | ⟨g1, g2, g3, ge⟩
  all_goals
    simp_all [acquired, released, transferred, Event.acquires, Event.releases, Event.transfers]
  all_goals
    first
      | (exfalso
         simp_all [HandleReply.succeeds]
         done)
      | (rw [List.perm_iff_count]
         intro r
         simp only [List.count_cons, List.count_nil]
         omega)

/-- C1 as stated fails at `decoderNullImage` and at `decoderNullPrimary`: the
session is non-null, reading, the primary-image-handle request and the decode
of the selected handle all report Ok, width, height and stride are greater
than zero and the pixel pointer is non-null, and `create` returns false,
because the decode delivered a null image (first decoder) or the primary
request delivered a null handle (second decoder). -/
theorem create_ok_with_null :
    (decoderNullImage.heif_context_alloc ≠ nullptr
      ∧ (readReply decoderNullImage "photo.heic").code = heif_error_Ok
      ∧ (primaryReply decoderNullImage).error.code = heif_error_Ok
      ∧ (decodeReply decoderNullImage).error.code = heif_error_Ok
      ∧ 0 < decodedWidth decoderNullImage ∧ 0 < decodedHeight decoderNullImage
      ∧ 0 < (planeReply decoderNullImage).stride
      ∧ (planeReply decoderNullImage).data ≠ nullptr
      ∧ (decodeReply decoderNullImage).out = nullptr
      ∧ (create decoderNullImage "photo.heic" 0 0 nullImage).ret = false)
    ∧ (decoderNullPrimary.heif_context_alloc ≠ nullptr
      ∧ (readReply decoderNullPrimary "photo.heic").code = heif_error_Ok
      ∧ (primaryReply decoderNullPrimary).error.code = heif_error_Ok
      ∧ (decodeReply decoderNullPrimary).error.code = heif_error_Ok
      ∧ 0 < decodedWidth decoderNullPrimary ∧ 0 < decodedHeight decoderNullPrimary
      ∧ 0 < (planeReply decoderNullPrimary).stride
      ∧ (planeReply decoderNullPrimary).data ≠ nullptr
      ∧ (primaryReply decoderNullPrimary).out = nullptr
      ∧ (create decoderNullPrimary "photo.heic" 0 0 nullImage).ret = false) := by
  decide

/-- C1, amended: `create` returns true if and only if the context allocation
returns a non-null session, reading the file into the session reports Ok, the
primary-image-handle request reports Ok and delivers a non-null handle,
decoding the selected handle into RGB, interleaved RGBA, reports Ok and
delivers a non-null image, the width and the height reported for the
interleaved channel of the decoded image are both greater than zero, the
reported stride is greater than zero and the reported pixel pointer is
non-null; in every other case it returns false. -/
theorem create_ret_iff (d : Decoder) (path : String) (width height : Int) (image : QImage) :
    (create d path width height image).ret = true ↔
      d.heif_context_alloc ≠ nullptr ∧ (readReply d path).code = heif_error_Ok
      ∧ (primaryReply d).succeeds ∧ (decodeReply d).succeeds
      ∧ 0 < decodedWidth d ∧ 0 < decodedHeight d
      ∧ 0 < (planeReply d).stride ∧ (planeReply d).data ≠ nullptr := by
  simp only [readReply, primaryReply, selectedHandle, decodeReply, decodedWidth, decodedHeight,
    planeReply]
  rcases create_cases d path width height image _ rfl _ rfl
    (getThumbnailHandle d d.heif_context_alloc).1 (getThumbnailHandle d d.heif_context_alloc).2
    rfl _ rfl _ rfl _ rfl _ rfl with
    ⟨h1, he⟩ | ⟨h1, h2, he⟩ | ⟨h1, h2, h3, he⟩ | ⟨h1, h2, h3, h4, he⟩
    | ⟨h1, h2, h3, h4, h5, he⟩ | ⟨h1, h2, h3, h4, h5, h6, he⟩ | ⟨h1, h2, h3, h4, h5, h6, he⟩
  all_goals
    rw [he]
    rcases getThumbnailHandle_cases d d.heif_context_alloc _ rfl _ rfl _ rfl with
      ⟨g1, ge⟩ | ⟨g1, g2, ge⟩ | ⟨g1, g2, g3, ge⟩ | ⟨g1, g2, g3, ge⟩
  all_goals
    simp_all
  all_goals
    first
      | (exfalso
         simp_all [HandleReply.succeeds]
         done)
      | omega
      | (intros
         rcases h6 with h6 | h6
         · omega
         · exact h6)

/-- C2: when the primary-image-handle request succeeds, the listing (asked for
at most one identifier) reports at least one, and the thumbnail-handle request
for the identifier it wrote succeeds, `getThumbnailHandle` returns the handle
that request delivered, and its last step releases the primary handle. -/
theorem getThumbnailHandle_thumbnail (d : Decoder) (context : Ptr)
    (hprimary : (d.heif_context_get_primary_image_handle context).succeeds)
    (hcount : 1 ≤ (d.heif_image_handle_get_list_of_thumbnail_IDs
      (d.heif_context_get_primary_image_handle context).out 1).count)
    (hthumbnail : (d.heif_image_handle_get_thumbnail
      (d.heif_context_get_primary_image_handle context).out
      (d.heif_image_handle_get_list_of_thumbnail_IDs
        (d.heif_context_get_primary_image_handle context).out 1).id).succeeds) :
    getThumbnailHandle d context
      = ((d.heif_image_handle_get_thumbnail
            (d.heif_context_get_primary_image_handle context).out
            (d.heif_image_handle_get_list_of_thumbnail_IDs
              (d.heif_context_get_primary_image_handle context).out 1).id).out,
         [Event.heif_context_get_primary_image_handle context
            (d.heif_context_get_primary_image_handle context),
          Event.heif_image_handle_get_list_of_thumbnail_IDs
            (d.heif_context_get_primary_image_handle context).out 1
            (d.heif_image_handle_get_list_of_thumbnail_IDs
              (d.heif_context_get_primary_image_handle context).out 1),
          Event.heif_image_handle_get_thumbnail
            (d.heif_context_get_primary_image_handle context).out
            (d.heif_image_handle_get_list_of_thumbnail_IDs
              (d.heif_context_get_primary_image_handle context).out 1).id
            (d.heif_image_handle_get_thumbnail
              (d.heif_context_get_primary_image_handle context).out
              (d.heif_image_handle_get_list_of_thumbnail_IDs
                (d.heif_context_get_primary_image_handle context).out 1).id),
          Event.heif_image_handle_release
            (d.heif_context_get_primary_image_handle context).out])
    ∧ ((d.heif_image_handle_get_thumbnail
            (d.heif_context_get_primary_image_handle context).out
            (d.heif_image_handle_get_list_of_thumbnail_IDs
              (d.heif_context_get_primary_image_handle context).out 1).id).out
          ≠ (d.heif_context_get_primary_image_handle context).out
        → (getThumbnailHandle d context).1
          ≠ (d.heif_context_get_primary_image_handle context).out) := by
  rcases getThumbnailHandle_cases d context _ rfl _ rfl _ rfl with
    ⟨g1, _⟩ | ⟨_, g2, _⟩ | ⟨_, _, g3, _⟩ | ⟨_, _, _, ge⟩
  · exact absurd hprimary g1
  · omega
  · exact absurd hthumbnail g3
  · rw [ge]
    exact ⟨rfl, fun hne => hne⟩

/-- C2 at `decoderWithThumbnail`: the selector returns handle 3, the thumbnail,
and releases handle 2, the primary. -/
theorem getThumbnailHandle_thumbnail_witness :
    getThumbnailHandle decoderWithThumbnail 1
      = (3,
         [Event.heif_context_get_primary_image_handle 1 ⟨⟨heif_error_Ok⟩, 2⟩,
          Event.heif_image_handle_get_list_of_thumbnail_IDs 2 1 ⟨1, 7⟩,
          Event.heif_image_handle_get_thumbnail 2 7 ⟨⟨heif_error_Ok⟩, 3⟩,
          Event.heif_image_handle_release 2])
    ∧ ((3 : Ptr) ≠ 2 → (getThumbnailHandle decoderWithThumbnail 1).1 ≠ 2) :=
  getThumbnailHandle_thumbnail decoderWithThumbnail 1 (by decide) (by decide) (by decide)

/-- C3: `getThumbnailHandle` returns null exactly when the primary-image-handle
request does not succeed; when it succeeds and the listing reports no
identifier (count 0) or the thumbnail-handle request reports a non-Ok status,
the handle returned is the primary handle. -/
theorem getThumbnailHandle_never_fatal (d : Decoder) (context : Ptr) :
    ((d.heif_context_get_primary_image_handle context).succeeds
      → (getThumbnailHandle d context).1 ≠ nullptr)
    ∧ ((getThumbnailHandle d context).1 = nullptr
      → ¬ (d.heif_context_get_primary_image_handle context).succeeds)
    ∧ ((d.heif_context_get_primary_image_handle context).succeeds
      → ((d.heif_image_handle_get_list_of_thumbnail_IDs
            (d.heif_context_get_primary_image_handle context).out 1).count = 0
          ∨ (d.heif_image_handle_get_thumbnail
              (d.heif_context_get_primary_image_handle context).out
              (d.heif_image_handle_get_list_of_thumbnail_IDs
                (d.heif_context_get_primary_image_handle context).out 1).id).error.code
            ≠ heif_error_Ok)
      → (getThumbnailHandle d context).1
        = (d.heif_context_get_primary_image_handle context).out) := by
  rcases getThumbnailHandle_cases d context _ rfl _ rfl _ rfl with
    ⟨g1, ge⟩ | ⟨g1, g2, ge⟩ | ⟨g1, g2, g3, ge⟩ | ⟨g1, g2, g3, ge⟩
  all_goals
    rw [ge]
    simp_all [HandleReply.succeeds]

/-- C3 at `decoderWithoutThumbnail`: the primary request succeeds, the listing
reports no identifier, and the selector returns the primary handle 2. -/
theorem getThumbnailHandle_never_fatal_witness :
    (getThumbnailHandle decoderWithoutThumbnail 1).1 ≠ nullptr
    ∧ (getThumbnailHandle decoderWithoutThumbnail 1).1
      = (decoderWithoutThumbnail.heif_context_get_primary_image_handle 1).out :=
  ⟨(getThumbnailHandle_never_fatal decoderWithoutThumbnail 1).1 (by decide),
   (getThumbnailHandle_never_fatal decoderWithoutThumbnail 1).2.2 (by decide)
     (Or.inl (by decide))⟩

/-- C4: when `create` returns false the caller's image is what it was before
the call, and the run hands no decoded image over to an output image. -/
theorem create_false_frame (d : Decoder) (path : String) (width height : Int) (image : QImage)
    (hfalse : (create d path width height image).ret = false) :
    (create d path width height image).image = image
    ∧ transferred (create d path width height image).log = [] := by
  rcases create_cases d path width height image _ rfl _ rfl
    (getThumbnailHandle d d.heif_context_alloc).1 (getThumbnailHandle d d.heif_context_alloc).2
    rfl _ rfl _ rfl _ rfl _ rfl with
    ⟨h1, he⟩ | ⟨h1, h2, he⟩ | ⟨h1, h2, h3, he⟩ | ⟨h1, h2, h3, h4, he⟩
    | ⟨h1, h2, h3, h4, h5, he⟩ | ⟨h1, h2, h3, h4, h5, h6, he⟩ | ⟨h1, h2, h3, h4, h5, h6, he⟩
  all_goals
    rw [he] at hfalse ⊢
    rcases getThumbnailHandle_cases d d.heif_context_alloc _ rfl _ rfl _ rfl with
      ⟨g1, ge⟩ | ⟨g1, g2, ge⟩ | ⟨g1, g2, g3, ge⟩ | ⟨g1, g2, g3, ge⟩
  all_goals
    simp_all [transferred, Event.transfers]

/-- C4 at `decoderUnreadable`: the call returns false and the caller's null
image is still the null image. -/
theorem create_false_frame_witness :
    (create decoderUnreadable "notes.txt" 128 128 nullImage).ret = false
    ∧ (create decoderUnreadable "notes.txt" 128 128 nullImage).image = nullImage
    ∧ transferred (create decoderUnreadable "notes.txt" 128 128 nullImage).log = [] :=
  ⟨by decide, create_false_frame decoderUnreadable "notes.txt" 128 128 nullImage (by decide)⟩

/-- C6: when `create` returns true the output image is the `QImage` built over
the pixel pointer, with the width, height and stride, that the decoder
reported in this run for the interleaved channel of the decoded image of the
selected handle; its format is `Format_RGBA8888`; its cleanup function is the
one that calls `heif_image_release` and its cleanup argument is that decoded
image, which the scoped pointer gave up and no step of the run releases. -/
theorem create_true_image (d : Decoder) (path : String) (width height : Int) (image : QImage)
    (htrue : (create d path width height image).ret = true) :
    (create d path width height image).image
      = QImage.mk (planeReply d).data (decodedWidth d) (decodedHeight d) (planeReply d).stride
          QImageFormat.Format_RGBA8888 QImageCleanupFunction.heif_image_release
          (decodeReply d).out
    ∧ Event.heif_decode_image (selectedHandle d) heif_colorspace.heif_colorspace_RGB
          heif_chroma.heif_chroma_interleaved_RGBA nullptr (decodeReply d)
        ∈ (create d path width height image).log
    ∧ Event.heif_image_get_width (decodeReply d).out heif_channel.heif_channel_interleaved
          (decodedWidth d) ∈ (create d path width height image).log
    ∧ Event.heif_image_get_height (decodeReply d).out heif_channel.heif_channel_interleaved
          (decodedHeight d) ∈ (create d path width height image).log
    ∧ Event.heif_image_get_plane_readonly (decodeReply d).out
          heif_channel.heif_channel_interleaved (planeReply d)
        ∈ (create d path width height image).log
    ∧ Event.scoped_heif_image_ptr_release (decodeReply d).out
        ∈ (create d path width height image).log
    ∧ ∀ p, Event.heif_image_release p ∉ (create d path width height image).log := by
  simp only [readReply, primaryReply, selectedHandle, decodeReply, decodedWidth, decodedHeight,
    planeReply]
  rcases create_cases d path width height image _ rfl _ rfl
    (getThumbnailHandle d d.heif_context_alloc).1 (getThumbnailHandle d d.heif_context_alloc).2
    rfl _ rfl _ rfl _ rfl _ rfl with
    ⟨h1, he⟩ | ⟨h1, h2, he⟩ | ⟨h1, h2, h3, he⟩ | ⟨h1, h2, h3, h4, he⟩
    | ⟨h1, h2, h3, h4, h5, he⟩ | ⟨h1, h2, h3, h4, h5, h6, he⟩ | ⟨h1, h2, h3, h4, h5, h6, he⟩
  all_goals
    rw [he] at htrue ⊢
    rcases getThumbnailHandle_cases d d.heif_context_alloc _ rfl _ rfl _ rfl with
      ⟨g1, ge⟩ | ⟨g1, g2, ge⟩ | ⟨g1, g2, g3, ge⟩ | ⟨g1, g2, g3, ge⟩
  all_goals
    simp_all

/-- C6 at `decoderWithThumbnail`: the output image views the pixels at address
5 as 160 x 120 with 640 bytes a row and owns decoded image 4. -/
theorem create_true_image_witness :
    (create decoderWithThumbnail "photo.heic" 0 0 nullImage).ret = true
    ∧ (create decoderWithThumbnail "photo.heic" 0 0 nullImage).image
      = QImage.mk 5 160 120 640 QImageFormat.Format_RGBA8888
          QImageCleanupFunction.heif_image_release 4 :=
  ⟨by decide,
   (create_true_image decoderWithThumbnail "photo.heic" 0 0 nullImage (by decide)).1⟩

/-- C7: the hints are not read: for any two pairs of hints `create` returns the
same boolean, leaves the same image and makes the same calls in the same
order. -/
theorem create_ignores_hints (d : Decoder) (path : String) (image : QImage)
    (w1 h1 w2 h2 : Int) :
    create d path w1 h1 image = create d path w2 h2 image :=
  rfl

/-- C8 as stated fails at `decoderNegativeCount`: the listing returns -1, which
is less than 1, and `handleForThumbnailImage` still requests the thumbnail
handle, so that the selector returns handle 3 and not the primary handle 2. -/
theorem handleForThumbnailImage_negative_count :
    (decoderNegativeCount.heif_image_handle_get_list_of_thumbnail_IDs 2 1).count = -1
    ∧ ¬ (1 ≤ (decoderNegativeCount.heif_image_handle_get_list_of_thumbnail_IDs 2 1).count)
    ∧ Event.heif_image_handle_get_thumbnail 2 7 ⟨⟨heif_error_Ok⟩, 3⟩
        ∈ (handleForThumbnailImage decoderNegativeCount 2).2
    ∧ (decoderNegativeCount.heif_context_get_primary_image_handle 1).out = 2
    ∧ (getThumbnailHandle decoderNegativeCount 1).1 = 3 := by
  decide

/-- C8, amended: `handleForThumbnailImage` requests a thumbnail handle exactly
when the count the listing returns is not zero, and then once, for the
identifier the listing wrote; when the count is zero it makes no request and
returns null, and the selector returns the primary handle with no further
call. -/
theorem handleForThumbnailImage_requests_iff (d : Decoder) (handle : Ptr) :
    (((handleForThumbnailImage d handle).2.any Event.isGetThumbnail = true)
      ↔ (d.heif_image_handle_get_list_of_thumbnail_IDs handle 1).count ≠ 0)
    ∧ ((d.heif_image_handle_get_list_of_thumbnail_IDs handle 1).count ≠ 0
      → (handleForThumbnailImage d handle).2
        = [Event.heif_image_handle_get_list_of_thumbnail_IDs handle 1
            (d.heif_image_handle_get_list_of_thumbnail_IDs handle 1),
           Event.heif_image_handle_get_thumbnail handle
            (d.heif_image_handle_get_list_of_thumbnail_IDs handle 1).id
            (d.heif_image_handle_get_thumbnail handle
              (d.heif_image_handle_get_list_of_thumbnail_IDs handle 1).id)])
    ∧ ((d.heif_image_handle_get_list_of_thumbnail_IDs handle 1).count = 0
      → handleForThumbnailImage d handle
        = (nullptr, [Event.heif_image_handle_get_list_of_thumbnail_IDs handle 1
            (d.heif_image_handle_get_list_of_thumbnail_IDs handle 1)]))
    ∧ ∀ context : Ptr,
        (d.heif_context_get_primary_image_handle context).succeeds
        → (d.heif_image_handle_get_list_of_thumbnail_IDs
            (d.heif_context_get_primary_image_handle context).out 1).count = 0
        → getThumbnailHandle d context
          = ((d.heif_context_get_primary_image_handle context).out,
             [Event.heif_context_get_primary_image_handle context
                (d.heif_context_get_primary_image_handle context),
              Event.heif_image_handle_get_list_of_thumbnail_IDs
                (d.heif_context_get_primary_image_handle context).out 1
                (d.heif_image_handle_get_list_of_thumbnail_IDs
                  (d.heif_context_get_primary_image_handle context).out 1)]) := by
  refine ⟨?_, ?_, ?_, ?_⟩
  · unfold handleForThumbnailImage
    simp only []
    split_ifs <;> simp_all [Event.isGetThumbnail]
  · intro hne
    unfold handleForThumbnailImage
    simp only []
    split_ifs <;> simp_all
  · intro hzero
    simp [handleForThumbnailImage, hzero]
  · intro context hprimary hzero
    rcases getThumbnailHandle_cases d context _ rfl _ rfl _ rfl with
      ⟨g1, _⟩ | ⟨_, _, ge⟩ | ⟨_, g2, _⟩ | ⟨_, g2, _⟩
    · exact absurd hprimary g1
    · exact ge
    · exact absurd hzero g2
    · exact absurd hzero g2

/-- C10 as stated fails at `decoderNarrowStride`: `create` returns true with a
width of 160 and a row stride of one byte, less than 4 * 160. -/
theorem create_narrow_stride :
    (create decoderNarrowStride "photo.heic" 0 0 nullImage).ret = true
    ∧ (create decoderNarrowStride "photo.heic" 0 0 nullImage).image.width = 160
    ∧ (create decoderNarrowStride "photo.heic" 0 0 nullImage).image.bytesPerLine = 1
    ∧ ¬ (4 * (create decoderNarrowStride "photo.heic" 0 0 nullImage).image.width
          ≤ (create decoderNarrowStride "photo.heic" 0 0 nullImage).image.bytesPerLine) := by
  decide

/-- C10, amended: when `create` returns true the output image has a width and a
height greater than zero, a non-null pixel pointer and a row stride greater
than zero. -/
theorem create_true_geometry (d : Decoder) (path : String) (width height : Int)
    (image : QImage) (htrue : (create d path width height image).ret = true) :
    0 < (create d path width height image).image.width
    ∧ 0 < (create d path width height image).image.height
    ∧ (create d path width height image).image.data ≠ nullptr
    ∧ 0 < (create d path width height image).image.bytesPerLine := by
  rcases create_cases d path width height image _ rfl _ rfl
    (getThumbnailHandle d d.heif_context_alloc).1 (getThumbnailHandle d d.heif_context_alloc).2
    rfl _ rfl _ rfl _ rfl _ rfl with
    ⟨h1, he⟩ | ⟨h1, h2, he⟩ | ⟨h1, h2, h3, he⟩ | ⟨h1, h2, h3, h4, he⟩
    | ⟨h1, h2, h3, h4, h5, he⟩ | ⟨h1, h2, h3, h4, h5, h6, he⟩ | ⟨h1, h2, h3, h4, h5, h6, he⟩
  all_goals
    rw [he] at htrue ⊢
  all_goals
    first
      | exact ⟨h5.1, h5.2, h6.2, h6.1⟩
      | simp at htrue

/-- C10, amended, at `decoderWithThumbnail`: 160 x 120, 640 bytes a row. -/
theorem create_true_geometry_witness :
    (create decoderWithThumbnail "photo.heic" 256 256 nullImage).ret = true
    ∧ 0 < (create decoderWithThumbnail "photo.heic" 256 256 nullImage).image.width
    ∧ 0 < (create decoderWithThumbnail "photo.heic" 256 256 nullImage).image.height
    ∧ (create decoderWithThumbnail "photo.heic" 256 256 nullImage).image.data ≠ nullptr
    ∧ 0 < (create decoderWithThumbnail "photo.heic" 256 256 nullImage).image.bytesPerLine :=
  ⟨by decide,
   create_true_geometry decoderWithThumbnail "photo.heic" 256 256 nullImage (by decide)⟩

/-- C9: wherever the log of `create` has a session free, it is the free of the
session allocated, nothing follows it, and the steps before it release or hand
over to the output image every handle and every image acquired in the run: the
session is freed last, after all that was derived from it. -/
theorem create_session_freed_last (d : Decoder) (path : String) (width height : Int)
    (image : QImage) (pre post : List Event) (p : Ptr)
    (hsplit : (create d path width height image).log
      = pre ++ Event.heif_context_free p :: post) :
    post = [] ∧ p = d.heif_context_alloc
    ∧ (∀ e ∈ pre, e.isContextFree = false)
    ∧ List.Perm (released pre ++ transferred pre)
        (derived (acquired (create d path width height image).log)) := by
  rcases create_log_shape d path width height image with ⟨_, hno⟩ | ⟨hl, hb, hperm⟩
  · exact absurd hsplit (no_free_no_split _ hno pre post p)
  · rw [hl] at hsplit
    obtain ⟨hpre, hp, hpost⟩ := split_at_last_free _ _ hb pre post p hsplit
    rw [hpre]
    exact ⟨hpost, hp, hb, hperm⟩

/-- C9 at `decoderWithThumbnail`: the session free is the thirteenth and last
step; before it the primary handle 2 and the thumbnail handle 3 are released
and the decoded image 4 is handed over. -/
theorem create_session_freed_last_witness :
    (create decoderWithThumbnail "photo.heic" 0 0 nullImage).log
      = thumbnailRunBeforeFree ++ Event.heif_context_free 1 :: []
    ∧ (([] : List Event) = [] ∧ (1 : Ptr) = decoderWithThumbnail.heif_context_alloc
      ∧ (∀ e ∈ thumbnailRunBeforeFree, e.isContextFree = false)
      ∧ List.Perm (released thumbnailRunBeforeFree ++ transferred thumbnailRunBeforeFree)
          (derived (acquired (create decoderWithThumbnail "photo.heic" 0 0 nullImage).log))) :=
  ⟨rfl,
   create_session_freed_last decoderWithThumbnail "photo.heic" 0 0 nullImage
     thumbnailRunBeforeFree [] 1 rfl⟩

end HeifThumbnailer
